import Mathlib

/-!
Verification development for the energy-skate-park skater model.

The development embeds, over exact rationals, the two state records of the
simulation core and the operations on them:

* `Skater` — the live, observable model (js/.../model/Skater.js, the
  `energy-skate-park` variant found in the sources): one field per axon
  Property, plus the two plain release-snapshot fields `startingAngle` and
  `startingTrackControlPointSources` set by `released`.  The derived
  Properties (`gravityProperty`, `speedProperty`, `movedProperty`,
  `allowClearingThermalEnergyProperty`) are pure functions of the listed
  fields and are embedded as functions where needed.  The
  `headPositionProperty` is a view-support quantity (pie-chart placement)
  computed with trigonometric functions of the angle; it is outside this
  rational embedding and carries no physical state.
* `SkaterState` — the immutable per-step snapshot (model/SkaterState.js)
  with its family of copy-then-override transforms.

Track objects are referenced by identity in the source; references are
embedded as `Option TrackId` handles, and the geometric queries a Skater
operation performs on the live track (`copyControlPointSources`,
`getPoint`, `getViewAngleAt`) are passed in as function parameters.
-/

/-- Identity handle standing for a `Track` object reference; the source
compares track references with JavaScript identity. -/
abbrev TrackId := Nat

/-- A 2D vector (`DOT/Vector2`) as a pair of rationals. -/
abbrev Vec2 := Rat × Rat

/-- Facing direction of the skater (`directionProperty`, coded as the
strings `left` / `right` in the source). -/
inductive Direction
  | left
  | right
deriving DecidableEq, Repr

/-- The live skater model: one field per axon Property of `Skater`'s
constructor, plus the plain instance fields `startingAngle` and
`startingTrackControlPointSources` assigned by `released`. -/
structure Skater where
  track : Option TrackId
  parametricPosition : Rat
  parametricSpeed : Rat
  onTopSideOfTrack : Bool
  gravityMagnitude : Rat
  referenceHeight : Rat
  position : Vec2
  mass : Rat
  direction : Direction
  velocity : Vec2
  dragging : Bool
  kineticEnergy : Rat
  potentialEnergy : Rat
  thermalEnergy : Rat
  totalEnergy : Rat
  angle : Rat
  startingPosition : Vec2
  startingU : Rat
  startingUp : Bool
  startingTrack : Option TrackId
  startingAngle : Rat
  startingTrackControlPointSources : List Vec2
deriving DecidableEq, Repr

/-- Modelled from the spec: `Constants.DEFAULT_MASS` is not under src/.
The mass control range is [25, 100] kg (the view's mass-to-scale mapping in
SkaterNode.js is anchored at `(100 + 25) / 2` and `100`), and the default
mass starts "in the middle of the mass PhysicalControl range". -/
def Constants.DEFAULT_MASS : Rat := 62.5

/-- Modelled from the spec: `Constants.MASS_RANGE` minimum (25 kg), the
lower anchor of the SkaterNode.js mass-to-scale mapping; the spec requires
mass "bounded to a configured range" with strictly positive minimum. -/
def Constants.MASS_RANGE_MIN : Rat := 25

/-- Modelled from the spec: `Constants.MASS_RANGE` maximum (100 kg). -/
def Constants.MASS_RANGE_MAX : Rat := 100

/-- The JavaScript double constant `Math.PI`. -/
def MathPI : Rat := 3.141592653589793

/-- `gravityProperty`, derived: gravity with sign, `-gravityMagnitude`
(the sim only supports negative or zero gravity). -/
def Skater.gravity (s : Skater) : Rat := -s.gravityMagnitude

/-- The skater constructed with the default options: field defaults of the
constructor, after the constructor's closing `updateEnergy()` (which leaves
the four energies at 0 for the default kinematics).  The plain snapshot
fields, `undefined` before the first `released` call, are given the neutral
values 0 and `[]`. -/
def Skater.initialSkater : Skater where
  track := none
  parametricPosition := 0
  parametricSpeed := 0
  onTopSideOfTrack := true
  gravityMagnitude := 9.8
  referenceHeight := 0
  position := (3.5, 0)
  mass := Constants.DEFAULT_MASS
  direction := Direction.left
  velocity := (0, 0)
  dragging := false
  kineticEnergy := 0
  potentialEnergy := 0
  thermalEnergy := 0
  totalEnergy := 0
  angle := 0
  startingPosition := (3.5, 0)
  startingU := 0
  startingUp := true
  startingTrack := none
  startingAngle := 0
  startingTrackControlPointSources := []

/-- `Skater.updateEnergy`: recompute kinetic, potential and total energy
from the current kinematic fields (KE from `0.5 * m * |v|^2`, PE from
`-m * (y - referenceHeight) * gravity`, total as their sum plus thermal). -/
def Skater.updateEnergy (s : Skater) : Skater :=
  let ke := 0.5 * s.mass * (s.velocity.1 * s.velocity.1 + s.velocity.2 * s.velocity.2)
  let pe := -s.mass * (s.position.2 - s.referenceHeight) * s.gravity
  { s with
    kineticEnergy := ke
    potentialEnergy := pe
    totalEnergy := ke + pe + s.thermalEnergy }

/-- The `parametricSpeedProperty` link body: direction hysteresis with the
0.01 speed threshold, reading the current side of track and keeping the
previous direction within the threshold. -/
def Skater.directionAfterSpeed (onTop : Bool) (old : Direction) (parametricSpeed : Rat) : Direction :=
  let speedThreshold : Rat := 0.01
  if parametricSpeed > speedThreshold then
    (if onTop then Direction.right else Direction.left)
  else if parametricSpeed < -speedThreshold then
    (if onTop then Direction.left else Direction.right)
  else
    old

/-- Assigning `parametricSpeedProperty.value`: the axon Property notifies
its link only when the value changes; the link updates `direction`. -/
def Skater.setParametricSpeed (v : Rat) (s : Skater) : Skater :=
  if v = s.parametricSpeed then s
  else
    { s with
      parametricSpeed := v
      direction := Skater.directionAfterSpeed s.onTopSideOfTrack s.direction v }

/-- Assigning `draggingProperty.value`: on a change to `true`, the link
zeroes the velocity (see source issue #22). -/
def Skater.setDragging (b : Bool) (s : Skater) : Skater :=
  if b = s.dragging then s
  else if b then { s with dragging := b, velocity := (0, 0) }
  else { s with dragging := b }

/-- Assigning `massProperty.value`: on a change, the link calls
`updateEnergy`. -/
def Skater.setMass (m : Rat) (s : Skater) : Skater :=
  if m = s.mass then s else Skater.updateEnergy { s with mass := m }

/-- `Skater.clearThermal`: zero the thermal energy and update the energy
distribution. -/
def Skater.clearThermal (s : Skater) : Skater :=
  Skater.updateEnergy { s with thermalEnergy := 0 }

/-- `Skater.reset`: every Property is reset to its construction default
(the intermediate link notifications fired by the individual resets do not
affect the final field values: the dragging link only acts on a change to
`true`, the parametric-speed link keeps the direction at speed 0, and the
closing `updateEnergy()` recomputes the energies last), then energies are
recomputed from the defaults.  The plain snapshot fields are not
Properties and are not reset. -/
def Skater.reset (s : Skater) : Skater :=
  Skater.updateEnergy
    { Skater.initialSkater with
      startingAngle := s.startingAngle
      startingTrackControlPointSources := s.startingTrackControlPointSources }

/-- `Skater.resetPosition`: same Property resets as `reset` except that
`referenceHeightProperty` is absent from the reset list (source comment:
"leave the reference height, friction, and mass the same, see #237"), and
the saved mass is written back before the closing `updateEnergy()`. -/
def Skater.resetPosition (s : Skater) : Skater :=
  Skater.updateEnergy
    { Skater.initialSkater with
      referenceHeight := s.referenceHeight
      mass := s.mass
      startingAngle := s.startingAngle
      startingTrackControlPointSources := s.startingTrackControlPointSources }

/-- `Skater.returnToInitialPosition`: save the mass, `reset()`, write the
mass back through `massProperty` (whose link recomputes the energies). -/
def Skater.returnToInitialPosition (s : Skater) : Skater :=
  Skater.setMass s.mass (Skater.reset s)

/-- `arrayEquals` from Skater.js: element-wise comparison of two arrays of
control-point source positions using `Vector2.equals`. -/
def Skater.arrayEquals : List Vec2 → List Vec2 → Bool
  | [], [] => true
  | a :: as1, b :: bs1 => a == b && Skater.arrayEquals as1 bs1
  | _, _ => false

/-- The guard of `Skater.returnSkater`: a starting track was recorded, the
skater is currently on that same track (reference identity), and the
track's control-point source positions equal the snapshot captured at
release.  `cps` models `copyControlPointSources()` on the live track. -/
def Skater.sameStartingTrack (cps : TrackId → List Vec2) (s : Skater) : Bool :=
  match s.startingTrack with
  | none => false
  | some t0 =>
    decide (s.track = some t0) && Skater.arrayEquals (cps t0) s.startingTrackControlPointSources

/-- `Skater.returnSkater`: restore the skater to the last release
snapshot, reattaching to the same track only if its control points are
unchanged since release, otherwise detaching to free fall; in both cases
restore the starting position, zero the velocity, clear the thermal energy
and recompute the energies. -/
def Skater.returnSkater (cps : TrackId → List Vec2) (s : Skater) : Skater :=
  let s1 :=
    if Skater.sameStartingTrack cps s then
      Skater.setParametricSpeed 0
        { s with
          parametricPosition := s.startingU
          angle := s.startingAngle
          onTopSideOfTrack := s.startingUp }
    else
      { s with track := none, angle := s.startingAngle }
  let s2 := { s1 with position := s.startingPosition, velocity := (0, 0) }
  Skater.updateEnergy (Skater.clearThermal s2)

/-- `Skater.released`: capture a new release snapshot — stop dragging,
zero velocity and parametric speed, adopt the target track and parametric
position (snapping the position to the track when one is given), record
the starting snapshot (including the plain control-point-sources and angle
fields), and update the energy.  `getPoint` and `cps` model the live
track's `getPoint` and `copyControlPointSources`. -/
def Skater.released (getPoint : TrackId → Rat → Vec2) (cps : TrackId → List Vec2)
    (targetTrack : Option TrackId) (targetU : Rat) (s : Skater) : Skater :=
  let s1 := Skater.setDragging false s
  let s2 := { s1 with velocity := (0, 0) }
  let s3 := Skater.setParametricSpeed 0 s2
  let s4 := { s3 with track := targetTrack, parametricPosition := targetU }
  let s5 :=
    match targetTrack with
    | some t => { s4 with position := getPoint t targetU }
    | none => s4
  Skater.updateEnergy
    { s5 with
      startingPosition := s5.position
      startingU := targetU
      startingUp := s5.onTopSideOfTrack
      startingTrack := targetTrack
      startingTrackControlPointSources :=
        (match targetTrack with
         | some t => cps t
         | none => [])
      startingAngle := s5.angle }

/-- The immutable per-step snapshot of the skater (SkaterState.js): the
fourteen fields copied by `setState`. -/
structure SkaterState where
  positionX : Rat
  positionY : Rat
  velocityX : Rat
  velocityY : Rat
  gravity : Rat
  referenceHeight : Rat
  mass : Rat
  track : Option TrackId
  angle : Rat
  onTopSideOfTrack : Bool
  parametricPosition : Rat
  parametricSpeed : Rat
  dragging : Bool
  thermalEnergy : Rat
deriving DecidableEq, Repr

/-- The `overrides` argument of `SkaterState`'s constructor and of
`update`: for each field, either an overriding value (the key is present
in the object) or `none` (absent; `EMPTY_OBJECT` is all-`none`).  The
`track` override can itself carry `null`, hence the nested `Option`. -/
structure Overrides where
  positionX : Option Rat := none
  positionY : Option Rat := none
  velocityX : Option Rat := none
  velocityY : Option Rat := none
  gravity : Option Rat := none
  referenceHeight : Option Rat := none
  mass : Option Rat := none
  track : Option (Option TrackId) := none
  angle : Option Rat := none
  onTopSideOfTrack : Option Bool := none
  parametricPosition : Option Rat := none
  parametricSpeed : Option Rat := none
  dragging : Option Bool := none
  thermalEnergy : Option Rat := none
deriving DecidableEq, Repr

/-- `SkaterState.setState` with a `SkaterState` source: each field takes
the override when its key is present, else the source's field (the
`getValue` helper of the source file). -/
def SkaterState.setState (source : SkaterState) (o : Overrides) : SkaterState where
  positionX := o.positionX.getD source.positionX
  positionY := o.positionY.getD source.positionY
  velocityX := o.velocityX.getD source.velocityX
  velocityY := o.velocityY.getD source.velocityY
  gravity := o.gravity.getD source.gravity
  referenceHeight := o.referenceHeight.getD source.referenceHeight
  mass := o.mass.getD source.mass
  track := o.track.getD source.track
  angle := o.angle.getD source.angle
  onTopSideOfTrack := o.onTopSideOfTrack.getD source.onTopSideOfTrack
  parametricPosition := o.parametricPosition.getD source.parametricPosition
  parametricSpeed := o.parametricSpeed.getD source.parametricSpeed
  dragging := o.dragging.getD source.dragging
  thermalEnergy := o.thermalEnergy.getD source.thermalEnergy

/-- `new SkaterState( skater, overrides )` with a live `Skater` source
(the `source.positionProperty` branch of `setState`): fields are read from
the skater's Properties, `gravity` through the derived Property. -/
def SkaterState.fromSkater (sk : Skater) (o : Overrides) : SkaterState where
  positionX := o.positionX.getD sk.position.1
  positionY := o.positionY.getD sk.position.2
  velocityX := o.velocityX.getD sk.velocity.1
  velocityY := o.velocityY.getD sk.velocity.2
  gravity := o.gravity.getD sk.gravity
  referenceHeight := o.referenceHeight.getD sk.referenceHeight
  mass := o.mass.getD sk.mass
  track := o.track.getD sk.track
  angle := o.angle.getD sk.angle
  onTopSideOfTrack := o.onTopSideOfTrack.getD sk.onTopSideOfTrack
  parametricPosition := o.parametricPosition.getD sk.parametricPosition
  parametricSpeed := o.parametricSpeed.getD sk.parametricSpeed
  dragging := o.dragging.getD sk.dragging
  thermalEnergy := o.thermalEnergy.getD sk.thermalEnergy

/-- `SkaterState.getTotalEnergy`, computed directly from the fields. -/
def SkaterState.getTotalEnergy (s : SkaterState) : Rat :=
  0.5 * s.mass * (s.velocityX * s.velocityX + s.velocityY * s.velocityY)
    - s.mass * s.gravity * (s.positionY - s.referenceHeight) + s.thermalEnergy

/-- `SkaterState.getKineticEnergy`: KE = 1/2 * m * v^2. -/
def SkaterState.getKineticEnergy (s : SkaterState) : Rat :=
  0.5 * s.mass * (s.velocityX * s.velocityX + s.velocityY * s.velocityY)

/-- `SkaterState.getPotentialEnergy`: PE = -m * g * (y - referenceHeight). -/
def SkaterState.getPotentialEnergy (s : SkaterState) : Rat :=
  -s.mass * s.gravity * (s.positionY - s.referenceHeight)

/-- `SkaterState.update`: a new state with the values of this state and
the overriding values. -/
def SkaterState.update (s : SkaterState) (o : Overrides) : SkaterState :=
  SkaterState.setState s o

/-- `SkaterState.copy`: an exact copy (a new state from this state with
`EMPTY_OBJECT` overrides). -/
def SkaterState.copy (s : SkaterState) : SkaterState :=
  SkaterState.setState s {}

/-- `SkaterState.updateTrackUD`: copy, then set track and parametric
speed. -/
def SkaterState.updateTrackUD (s : SkaterState) (track : Option TrackId) (parametricSpeed : Rat) : SkaterState :=
  { s.copy with track := track, parametricSpeed := parametricSpeed }

/-- `SkaterState.updateUUDVelocityPosition`: copy, then set parametric
position and speed, velocity and position. -/
def SkaterState.updateUUDVelocityPosition (s : SkaterState) (parametricPosition parametricSpeed velocityX velocityY positionX positionY : Rat) : SkaterState :=
  { s.copy with
    parametricPosition := parametricPosition
    parametricSpeed := parametricSpeed
    velocityX := velocityX
    velocityY := velocityY
    positionX := positionX
    positionY := positionY }

/-- `SkaterState.updatePositionAngleUpVelocity`: copy, then set position,
angle, side of track and velocity. -/
def SkaterState.updatePositionAngleUpVelocity (s : SkaterState) (positionX positionY angle : Rat) (onTopSideOfTrack : Bool) (velocityX velocityY : Rat) : SkaterState :=
  { s.copy with
    angle := angle
    onTopSideOfTrack := onTopSideOfTrack
    velocityX := velocityX
    velocityY := velocityY
    positionX := positionX
    positionY := positionY }

/-- `SkaterState.updateThermalEnergy`: copy, then set the thermal energy
(asserted non-negative in the source). -/
def SkaterState.updateThermalEnergy (s : SkaterState) (thermalEnergy : Rat) : SkaterState :=
  { s.copy with thermalEnergy := thermalEnergy }

/-- `SkaterState.updateUPosition`: copy, then set parametric position and
position. -/
def SkaterState.updateUPosition (s : SkaterState) (parametricPosition positionX positionY : Rat) : SkaterState :=
  { s.copy with
    parametricPosition := parametricPosition
    positionX := positionX
    positionY := positionY }

/-- `SkaterState.switchToGround`: copy, then set thermal energy, clear the
track, face up with angle 0, and set velocity and position. -/
def SkaterState.switchToGround (s : SkaterState) (thermalEnergy velocityX velocityY positionX positionY : Rat) : SkaterState :=
  { s.copy with
    thermalEnergy := thermalEnergy
    track := none
    onTopSideOfTrack := true
    angle := 0
    velocityX := velocityX
    velocityY := velocityY
    positionX := positionX
    positionY := positionY }

/-- `SkaterState.strikeGround`: copy, then set thermal energy and x, clamp
y to 0, zero the velocity, angle 0, upright. -/
def SkaterState.strikeGround (s : SkaterState) (thermalEnergy positionX : Rat) : SkaterState :=
  { s.copy with
    thermalEnergy := thermalEnergy
    positionX := positionX
    positionY := 0
    velocityX := 0
    velocityY := 0
    angle := 0
    onTopSideOfTrack := true }

/-- `SkaterState.leaveTrack`: copy, then zero the parametric speed and
clear the track. -/
def SkaterState.leaveTrack (s : SkaterState) : SkaterState :=
  { s.copy with
    parametricSpeed := 0
    track := none }

/-- `SkaterState.updatePosition`: copy, then set the position. -/
def SkaterState.updatePosition (s : SkaterState) (positionX positionY : Rat) : SkaterState :=
  { s.copy with
    positionX := positionX
    positionY := positionY }

/-- `SkaterState.updateUDVelocity`: copy, then set parametric speed and
velocity. -/
def SkaterState.updateUDVelocity (s : SkaterState) (parametricSpeed velocityX velocityY : Rat) : SkaterState :=
  { s.copy with
    parametricSpeed := parametricSpeed
    velocityX := velocityX
    velocityY := velocityY }

/-- `SkaterState.continueFreeFall`: copy, then set velocity and position. -/
def SkaterState.continueFreeFall (s : SkaterState) (velocityX velocityY positionX positionY : Rat) : SkaterState :=
  { s.copy with
    velocityX := velocityX
    velocityY := velocityY
    positionX := positionX
    positionY := positionY }

/-- `SkaterState.attachToTrack`: copy, then set thermal energy, track,
side, parametric position and speed, velocity and position. -/
def SkaterState.attachToTrack (s : SkaterState) (thermalEnergy : Rat) (track : Option TrackId) (onTopSideOfTrack : Bool) (parametricPosition parametricSpeed velocityX velocityY positionX positionY : Rat) : SkaterState :=
  { s.copy with
    thermalEnergy := thermalEnergy
    track := track
    onTopSideOfTrack := onTopSideOfTrack
    parametricPosition := parametricPosition
    parametricSpeed := parametricSpeed
    velocityX := velocityX
    velocityY := velocityY
    positionX := positionX
    positionY := positionY }

/-- `SkaterState.setToSkater`: the commit point — copy this state's fields
onto the live skater, setting properties in the source's order (the
parametric-speed Property link fires before the side-of-track field is
overwritten), the angle from the live track's view angle when attached,
and finally `updateEnergy`.  `getViewAngle` models `getViewAngleAt` on the
live track. -/
def SkaterState.setToSkater (getViewAngle : TrackId → Rat → Rat) (st : SkaterState) (sk : Skater) : Skater :=
  let s1 :=
    { sk with
      track := st.track
      position := (st.positionX, st.positionY)
      velocity := (st.velocityX, st.velocityY)
      parametricPosition := st.parametricPosition }
  let s2 := Skater.setParametricSpeed st.parametricSpeed s1
  let s3 :=
    { s2 with
      thermalEnergy := st.thermalEnergy
      onTopSideOfTrack := st.onTopSideOfTrack }
  let newAngle :=
    match st.track with
    | some t => getViewAngle t st.parametricPosition + (if st.onTopSideOfTrack then 0 else MathPI)
    | none => st.angle
  Skater.updateEnergy { s3 with angle := newAngle }

/-- Modelled from the spec: the ground-strike transition of the physics
integrator (EnergySkateParkModel, not under src/).  The caller of
`SkaterState.strikeGround` passes, as the new thermal energy, the
accumulated thermal energy plus the pre-impact kinetic energy ("convert
the pre-impact kinetic energy into thermal energy"), and the ground x at
the crossing. -/
def groundStrikeTransition (s : SkaterState) (positionX : Rat) : SkaterState :=
  SkaterState.strikeGround s (s.thermalEnergy + s.getKineticEnergy) positionX

/-- Modelled from the spec: the same ground-strike transition expressed
through `SkaterState.switchToGround` — clamp to the ground (y = 0), zero
the velocity, and convert the pre-impact kinetic energy into thermal
energy. -/
def groundSwitchTransition (s : SkaterState) (positionX : Rat) : SkaterState :=
  SkaterState.switchToGround s (s.thermalEnergy + s.getKineticEnergy) 0 0 positionX 0

/-- The outcome of the pointer-position computation of the skater drag
handler (SkaterNode.js `drag`): either not close enough to a track (the
skater is made upright at the clamped pointer position) or snapped to a
track point with the track's angle and side. -/
inductive DragResult
  | free (pos : Vec2)
  | onTrack (pos : Vec2) (angle : Rat) (up : Bool)
deriving DecidableEq, Repr

/-- The skater drag handler's `drag` callback: set side of track, angle
and position from the geometric result, then `updateEnergy`.  The
geometric search over the live tracks is view code and enters through
`DragResult`. -/
def Skater.dragMove (r : DragResult) (s : Skater) : Skater :=
  match r with
  | DragResult.free p =>
    Skater.updateEnergy { s with angle := 0, onTopSideOfTrack := true, position := p }
  | DragResult.onTrack p a up =>
    Skater.updateEnergy { s with onTopSideOfTrack := up, angle := a, position := p }

/-- The skater drag handler's `start` callback: set `dragging` (the link
zeroes the velocity), clear the thermal energy (source issue #32), then
jump to the pointer via `drag`. -/
def Skater.dragStart (r : DragResult) (s : Skater) : Skater :=
  Skater.dragMove r { Skater.setDragging true s with thermalEnergy := 0 }

/-- The reachable live-skater states: the initial skater, closed under the
operations the application performs on it.  The guards record when each
operation can fire: a drag `start`/`drag` only outside/inside a gesture,
a commit of an integrator-produced `SkaterState` only while not dragging
(modelled from the spec: "while the user is dragging, the Integrator is
not invoked" — the integrator itself is not under src/) and only of
states satisfying the `SkaterState` thermal-energy invariant asserted in
`setState`, and a mass set only within the configured mass range. -/
inductive Skater.Reachable : Skater → Prop
  | init : Skater.Reachable Skater.initialSkater
  | dragStart (r : DragResult) {s : Skater} :
      Skater.Reachable s → Skater.Reachable (Skater.dragStart r s)
  | dragMove (r : DragResult) {s : Skater} :
      Skater.Reachable s → s.dragging = true → Skater.Reachable (Skater.dragMove r s)
  | released (getPoint : TrackId → Rat → Vec2) (cps : TrackId → List Vec2)
      (targetTrack : Option TrackId) (targetU : Rat) {s : Skater} :
      Skater.Reachable s →
      Skater.Reachable (Skater.released getPoint cps targetTrack targetU s)
  | commit (getViewAngle : TrackId → Rat → Rat) (st : SkaterState) {s : Skater} :
      Skater.Reachable s → s.dragging = false → 0 ≤ st.thermalEnergy →
      Skater.Reachable (SkaterState.setToSkater getViewAngle st s)
  | reset {s : Skater} : Skater.Reachable s → Skater.Reachable (Skater.reset s)
  | resetPosition {s : Skater} :
      Skater.Reachable s → Skater.Reachable (Skater.resetPosition s)
  | returnToInitialPosition {s : Skater} :
      Skater.Reachable s → Skater.Reachable (Skater.returnToInitialPosition s)
  | returnSkater (cps : TrackId → List Vec2) {s : Skater} :
      Skater.Reachable s → Skater.Reachable (Skater.returnSkater cps s)
  | clearThermal {s : Skater} :
      Skater.Reachable s → Skater.Reachable (Skater.clearThermal s)
  | updateEnergy {s : Skater} :
      Skater.Reachable s → Skater.Reachable (Skater.updateEnergy s)
  | setMass (m : Rat) {s : Skater} :
      Skater.Reachable s → Constants.MASS_RANGE_MIN ≤ m → m ≤ Constants.MASS_RANGE_MAX →
      Skater.Reachable (Skater.setMass m s)

/-- A concrete free-fall snapshot used to instantiate universally
quantified statements. -/
def exampleState : SkaterState where
  positionX := 1
  positionY := 2
  velocityX := 3
  velocityY := 4
  gravity := -9.8
  referenceHeight := 0
  mass := 50
  track := none
  angle := 0
  onTopSideOfTrack := true
  parametricPosition := 0
  parametricSpeed := 0
  dragging := false
  thermalEnergy := 1

/-- A concrete control-point-sources lookup for the live tracks. -/
def exampleCps : TrackId → List Vec2 := fun _ => [(1, 2), (3, 4)]

/-- A concrete skater released on track 0 and still on it, with the
release snapshot matching `exampleCps`. -/
def exampleSkaterOnTrack : Skater :=
  { Skater.initialSkater with
    track := some 0
    startingTrack := some 0
    startingTrackControlPointSources := [(1, 2), (3, 4)]
    startingU := 5
    startingAngle := 7
    startingUp := false }

/-- A concrete skater with a raised potential-energy reference height. -/
def exampleRefHeightSkater : Skater :=
  { Skater.initialSkater with referenceHeight := 1 }

/-! ## Helper lemmas -/

theorem Skater.updateEnergy_thermalEnergy (s : Skater) :
    (Skater.updateEnergy s).thermalEnergy = s.thermalEnergy := rfl

theorem Skater.updateEnergy_dragging (s : Skater) :
    (Skater.updateEnergy s).dragging = s.dragging := rfl

theorem Skater.updateEnergy_velocity (s : Skater) :
    (Skater.updateEnergy s).velocity = s.velocity := rfl

theorem Skater.updateEnergy_mass (s : Skater) :
    (Skater.updateEnergy s).mass = s.mass := rfl

theorem Skater.setParametricSpeed_thermalEnergy (v : Rat) (s : Skater) :
    (Skater.setParametricSpeed v s).thermalEnergy = s.thermalEnergy := by
  unfold Skater.setParametricSpeed
  split <;> rfl

theorem Skater.setParametricSpeed_dragging (v : Rat) (s : Skater) :
    (Skater.setParametricSpeed v s).dragging = s.dragging := by
  unfold Skater.setParametricSpeed
  split <;> rfl

theorem Skater.setParametricSpeed_velocity (v : Rat) (s : Skater) :
    (Skater.setParametricSpeed v s).velocity = s.velocity := by
  unfold Skater.setParametricSpeed
  split <;> rfl

theorem Skater.setParametricSpeed_mass (v : Rat) (s : Skater) :
    (Skater.setParametricSpeed v s).mass = s.mass := by
  unfold Skater.setParametricSpeed
  split <;> rfl

theorem Skater.setParametricSpeed_parametricSpeed (v : Rat) (s : Skater) :
    (Skater.setParametricSpeed v s).parametricSpeed = v := by
  unfold Skater.setParametricSpeed
  split
  · next h => exact h.symm
  · rfl

theorem Skater.setDragging_thermalEnergy (b : Bool) (s : Skater) :
    (Skater.setDragging b s).thermalEnergy = s.thermalEnergy := by
  unfold Skater.setDragging
  split
  · rfl
  · split <;> rfl

theorem Skater.setDragging_mass (b : Bool) (s : Skater) :
    (Skater.setDragging b s).mass = s.mass := by
  unfold Skater.setDragging
  split
  · rfl
  · split <;> rfl

theorem Skater.setDragging_dragging (b : Bool) (s : Skater) :
    (Skater.setDragging b s).dragging = b := by
  unfold Skater.setDragging
  split
  · next h => exact h.symm
  · split <;> rfl

theorem Skater.setDragging_true_velocity (s : Skater)
    (h : s.dragging = true → s.velocity = (0, 0)) :
    (Skater.setDragging true s).velocity = (0, 0) := by
  unfold Skater.setDragging
  split
  · next heq => exact h heq.symm
  · simp

theorem Skater.setDragging_false_velocity (s : Skater) :
    (Skater.setDragging false s).velocity = s.velocity := by
  unfold Skater.setDragging
  split
  · rfl
  · simp

theorem Skater.dragMove_thermalEnergy (r : DragResult) (s : Skater) :
    (Skater.dragMove r s).thermalEnergy = s.thermalEnergy := by
  cases r <;> rfl

theorem Skater.dragMove_dragging (r : DragResult) (s : Skater) :
    (Skater.dragMove r s).dragging = s.dragging := by
  cases r <;> rfl

theorem Skater.dragMove_velocity (r : DragResult) (s : Skater) :
    (Skater.dragMove r s).velocity = s.velocity := by
  cases r <;> rfl

theorem Skater.dragMove_mass (r : DragResult) (s : Skater) :
    (Skater.dragMove r s).mass = s.mass := by
  cases r <;> rfl

theorem Skater.setMass_thermalEnergy (m : Rat) (s : Skater) :
    (Skater.setMass m s).thermalEnergy = s.thermalEnergy := by
  unfold Skater.setMass
  split <;> rfl

theorem Skater.setMass_dragging (m : Rat) (s : Skater) :
    (Skater.setMass m s).dragging = s.dragging := by
  unfold Skater.setMass
  split <;> rfl

theorem Skater.setMass_velocity (m : Rat) (s : Skater) :
    (Skater.setMass m s).velocity = s.velocity := by
  unfold Skater.setMass
  split <;> rfl

theorem Skater.setMass_mass (m : Rat) (s : Skater) :
    (Skater.setMass m s).mass = m := by
  unfold Skater.setMass
  split
  · next h => exact h.symm
  · rfl


theorem Skater.dragStart_thermalEnergy (r : DragResult) (s : Skater) :
    (Skater.dragStart r s).thermalEnergy = 0 := by
  unfold Skater.dragStart
  rw [Skater.dragMove_thermalEnergy]

theorem Skater.dragStart_dragging (r : DragResult) (s : Skater) :
    (Skater.dragStart r s).dragging = true := by
  unfold Skater.dragStart
  rw [Skater.dragMove_dragging]
  exact Skater.setDragging_dragging true s

theorem Skater.dragStart_mass (r : DragResult) (s : Skater) :
    (Skater.dragStart r s).mass = s.mass := by
  unfold Skater.dragStart
  rw [Skater.dragMove_mass]
  exact Skater.setDragging_mass true s

theorem Skater.dragStart_velocity (r : DragResult) (s : Skater)
    (h : s.dragging = true → s.velocity = (0, 0)) :
    (Skater.dragStart r s).velocity = (0, 0) := by
  unfold Skater.dragStart
  rw [Skater.dragMove_velocity]
  exact Skater.setDragging_true_velocity s h

theorem Skater.released_thermalEnergy (getPoint : TrackId → Rat → Vec2)
    (cps : TrackId → List Vec2) (tt : Option TrackId) (tu : Rat) (s : Skater) :
    (Skater.released getPoint cps tt tu s).thermalEnergy = s.thermalEnergy := by
  unfold Skater.released
  cases tt <;>
  · rw [Skater.updateEnergy_thermalEnergy]
    exact (Skater.setParametricSpeed_thermalEnergy 0 _).trans
      (Skater.setDragging_thermalEnergy false s)

theorem Skater.released_dragging (getPoint : TrackId → Rat → Vec2)
    (cps : TrackId → List Vec2) (tt : Option TrackId) (tu : Rat) (s : Skater) :
    (Skater.released getPoint cps tt tu s).dragging = false := by
  unfold Skater.released
  cases tt <;>
  · rw [Skater.updateEnergy_dragging]
    exact (Skater.setParametricSpeed_dragging 0 _).trans
      (Skater.setDragging_dragging false s)

theorem Skater.released_mass (getPoint : TrackId → Rat → Vec2)
    (cps : TrackId → List Vec2) (tt : Option TrackId) (tu : Rat) (s : Skater) :
    (Skater.released getPoint cps tt tu s).mass = s.mass := by
  unfold Skater.released
  cases tt <;>
  · rw [Skater.updateEnergy_mass]
    exact (Skater.setParametricSpeed_mass 0 _).trans (Skater.setDragging_mass false s)

theorem SkaterState.setToSkater_thermalEnergy (getViewAngle : TrackId → Rat → Rat)
    (st : SkaterState) (sk : Skater) :
    (SkaterState.setToSkater getViewAngle st sk).thermalEnergy = st.thermalEnergy := by
  unfold SkaterState.setToSkater
  rw [Skater.updateEnergy_thermalEnergy]

theorem SkaterState.setToSkater_dragging (getViewAngle : TrackId → Rat → Rat)
    (st : SkaterState) (sk : Skater) :
    (SkaterState.setToSkater getViewAngle st sk).dragging = sk.dragging := by
  unfold SkaterState.setToSkater
  rw [Skater.updateEnergy_dragging]
  exact Skater.setParametricSpeed_dragging st.parametricSpeed _

theorem SkaterState.setToSkater_mass (getViewAngle : TrackId → Rat → Rat)
    (st : SkaterState) (sk : Skater) :
    (SkaterState.setToSkater getViewAngle st sk).mass = sk.mass := by
  unfold SkaterState.setToSkater
  rw [Skater.updateEnergy_mass]
  exact Skater.setParametricSpeed_mass st.parametricSpeed _

theorem Skater.clearThermal_thermalEnergy (s : Skater) :
    (Skater.clearThermal s).thermalEnergy = 0 := rfl

theorem Skater.clearThermal_dragging (s : Skater) :
    (Skater.clearThermal s).dragging = s.dragging := rfl

theorem Skater.clearThermal_velocity (s : Skater) :
    (Skater.clearThermal s).velocity = s.velocity := rfl

theorem Skater.clearThermal_mass (s : Skater) :
    (Skater.clearThermal s).mass = s.mass := rfl

theorem Skater.returnSkater_thermalEnergy (cps : TrackId → List Vec2) (s : Skater) :
    (Skater.returnSkater cps s).thermalEnergy = 0 := rfl

theorem Skater.returnSkater_velocity (cps : TrackId → List Vec2) (s : Skater) :
    (Skater.returnSkater cps s).velocity = (0, 0) := rfl

theorem Skater.returnSkater_dragging (cps : TrackId → List Vec2) (s : Skater) :
    (Skater.returnSkater cps s).dragging = s.dragging := by
  unfold Skater.returnSkater
  split
  · rw [Skater.updateEnergy_dragging, Skater.clearThermal_dragging]
    exact Skater.setParametricSpeed_dragging 0 _
  · rfl

theorem Skater.returnSkater_mass (cps : TrackId → List Vec2) (s : Skater) :
    (Skater.returnSkater cps s).mass = s.mass := by
  unfold Skater.returnSkater
  split
  · rw [Skater.updateEnergy_mass, Skater.clearThermal_mass]
    exact Skater.setParametricSpeed_mass 0 _
  · rfl

theorem Skater.reset_eq (s : Skater) :
    Skater.reset s =
      { Skater.initialSkater with
        startingAngle := s.startingAngle
        startingTrackControlPointSources := s.startingTrackControlPointSources } := by
  unfold Skater.reset Skater.updateEnergy Skater.initialSkater Skater.gravity
  norm_num

/-- The live-skater invariant: non-negative thermal energy, zero velocity
while dragging, and mass within the configured range, at every reachable
state. -/
theorem Skater.reachable_invariant {s : Skater} (h : Skater.Reachable s) :
    0 ≤ s.thermalEnergy ∧ (s.dragging = true → s.velocity = (0, 0)) ∧
      Constants.MASS_RANGE_MIN ≤ s.mass ∧ s.mass ≤ Constants.MASS_RANGE_MAX := by
  induction h with
  | init =>
    refine ⟨le_refl 0, fun hd => absurd hd (by simp [Skater.initialSkater]), ?_, ?_⟩ <;>
      norm_num [Skater.initialSkater, Constants.DEFAULT_MASS,
        Constants.MASS_RANGE_MIN, Constants.MASS_RANGE_MAX]
  | dragStart r _ ih =>
    obtain ⟨h1, h2, h3, h4⟩ := ih
    refine ⟨?_, fun _ => Skater.dragStart_velocity _ _ h2, ?_, ?_⟩
    · rw [Skater.dragStart_thermalEnergy]
    · rw [Skater.dragStart_mass]; exact h3
    · rw [Skater.dragStart_mass]; exact h4
  | dragMove r _ _ ih =>
    obtain ⟨h1, h2, h3, h4⟩ := ih
    refine ⟨?_, ?_, ?_, ?_⟩
    · rw [Skater.dragMove_thermalEnergy]; exact h1
    · rw [Skater.dragMove_dragging, Skater.dragMove_velocity]; exact h2
    · rw [Skater.dragMove_mass]; exact h3
    · rw [Skater.dragMove_mass]; exact h4
  | released getPoint cps targetTrack targetU _ ih =>
    obtain ⟨h1, h2, h3, h4⟩ := ih
    refine ⟨?_, ?_, ?_, ?_⟩
    · rw [Skater.released_thermalEnergy]; exact h1
    · rw [Skater.released_dragging]; intro hd; exact absurd hd (by simp)
    · rw [Skater.released_mass]; exact h3
    · rw [Skater.released_mass]; exact h4
  | commit getViewAngle st _ hdrag hth ih =>
    obtain ⟨h1, h2, h3, h4⟩ := ih
    refine ⟨?_, ?_, ?_, ?_⟩
    · rw [SkaterState.setToSkater_thermalEnergy]; exact hth
    · rw [SkaterState.setToSkater_dragging, hdrag]; intro hd; exact absurd hd (by simp)
    · rw [SkaterState.setToSkater_mass]; exact h3
    · rw [SkaterState.setToSkater_mass]; exact h4
  | reset _ _ =>
    rw [Skater.reset_eq]
    refine ⟨le_refl 0, fun hd => absurd hd (by simp [Skater.initialSkater]), ?_, ?_⟩ <;>
      norm_num [Skater.initialSkater, Constants.DEFAULT_MASS,
        Constants.MASS_RANGE_MIN, Constants.MASS_RANGE_MAX]
  | resetPosition _ ih =>
    obtain ⟨h1, h2, h3, h4⟩ := ih
    unfold Skater.resetPosition
    refine ⟨?_, ?_, ?_, ?_⟩
    · rw [Skater.updateEnergy_thermalEnergy]; exact le_refl 0
    · rw [Skater.updateEnergy_dragging, Skater.updateEnergy_velocity]
      intro hd; exact absurd hd (by simp [Skater.initialSkater])
    · rw [Skater.updateEnergy_mass]; exact h3
    · rw [Skater.updateEnergy_mass]; exact h4
  | returnToInitialPosition _ ih =>
    obtain ⟨h1, h2, h3, h4⟩ := ih
    unfold Skater.returnToInitialPosition
    refine ⟨?_, ?_, ?_, ?_⟩
    · rw [Skater.setMass_thermalEnergy, Skater.reset_eq]; exact le_refl 0
    · rw [Skater.setMass_dragging, Skater.setMass_velocity, Skater.reset_eq]
      intro hd; exact absurd hd (by simp [Skater.initialSkater])
    · rw [Skater.setMass_mass]; exact h3
    · rw [Skater.setMass_mass]; exact h4
  | returnSkater cps _ ih =>
    obtain ⟨h1, h2, h3, h4⟩ := ih
    refine ⟨?_, ?_, ?_, ?_⟩
    · rw [Skater.returnSkater_thermalEnergy]
    · rw [Skater.returnSkater_velocity]; intro _; rfl
    · rw [Skater.returnSkater_mass]; exact h3
    · rw [Skater.returnSkater_mass]; exact h4
  | clearThermal _ ih =>
    obtain ⟨h1, h2, h3, h4⟩ := ih
    refine ⟨?_, ?_, ?_, ?_⟩
    · rw [Skater.clearThermal_thermalEnergy]
    · rw [Skater.clearThermal_dragging, Skater.clearThermal_velocity]; exact h2
    · rw [Skater.clearThermal_mass]; exact h3
    · rw [Skater.clearThermal_mass]; exact h4
  | updateEnergy _ ih =>
    obtain ⟨h1, h2, h3, h4⟩ := ih
    refine ⟨?_, ?_, ?_, ?_⟩
    · rw [Skater.updateEnergy_thermalEnergy]; exact h1
    · rw [Skater.updateEnergy_dragging, Skater.updateEnergy_velocity]; exact h2
    · rw [Skater.updateEnergy_mass]; exact h3
    · rw [Skater.updateEnergy_mass]; exact h4
  | setMass m _ hmin hmax ih =>
    obtain ⟨h1, h2, h3, h4⟩ := ih
    refine ⟨?_, ?_, ?_, ?_⟩
    · rw [Skater.setMass_thermalEnergy]; exact h1
    · rw [Skater.setMass_dragging, Skater.setMass_velocity]; exact h2
    · rw [Skater.setMass_mass]; exact hmin
    · rw [Skater.setMass_mass]; exact hmax

theorem Skater.setParametricSpeed_track (v : Rat) (s : Skater) :
    (Skater.setParametricSpeed v s).track = s.track := by
  unfold Skater.setParametricSpeed
  split <;> rfl

theorem Skater.setParametricSpeed_parametricPosition (v : Rat) (s : Skater) :
    (Skater.setParametricSpeed v s).parametricPosition = s.parametricPosition := by
  unfold Skater.setParametricSpeed
  split <;> rfl

theorem Skater.setParametricSpeed_angle (v : Rat) (s : Skater) :
    (Skater.setParametricSpeed v s).angle = s.angle := by
  unfold Skater.setParametricSpeed
  split <;> rfl

theorem Skater.setParametricSpeed_onTopSideOfTrack (v : Rat) (s : Skater) :
    (Skater.setParametricSpeed v s).onTopSideOfTrack = s.onTopSideOfTrack := by
  unfold Skater.setParametricSpeed
  split <;> rfl

/-- C1: the energy bookkeeping is a pure function of the state fields —
`getKineticEnergy` is `1/2 m (vx^2 + vy^2)`, `getPotentialEnergy` is
`-m g (y - referenceHeight)` with the skater's signed gravity non-positive
whenever its magnitude is non-negative, `getTotalEnergy` is their sum plus
the thermal energy, and `Skater.updateEnergy` stores these same
expressions of the skater's fields into the three energy Properties. -/
theorem C1_energy_bookkeeping :
    (∀ s : SkaterState,
      s.getKineticEnergy = 0.5 * s.mass * (s.velocityX * s.velocityX + s.velocityY * s.velocityY) ∧
      s.getPotentialEnergy = -(s.mass * s.gravity * (s.positionY - s.referenceHeight)) ∧
      s.getTotalEnergy = s.getKineticEnergy + s.getPotentialEnergy + s.thermalEnergy) ∧
    (∀ sk : Skater, 0 ≤ sk.gravityMagnitude → sk.gravity ≤ 0) ∧
    (∀ sk : Skater,
      (Skater.updateEnergy sk).kineticEnergy =
        0.5 * sk.mass * (sk.velocity.1 * sk.velocity.1 + sk.velocity.2 * sk.velocity.2) ∧
      (Skater.updateEnergy sk).potentialEnergy =
        -(sk.mass * sk.gravity * (sk.position.2 - sk.referenceHeight)) ∧
      (Skater.updateEnergy sk).totalEnergy =
        (Skater.updateEnergy sk).kineticEnergy + (Skater.updateEnergy sk).potentialEnergy
          + sk.thermalEnergy) := by
  refine ⟨fun s => ⟨rfl, ?_, ?_⟩, fun sk h => ?_, fun sk => ⟨rfl, ?_, rfl⟩⟩
  · unfold SkaterState.getPotentialEnergy; ring
  · unfold SkaterState.getTotalEnergy SkaterState.getKineticEnergy SkaterState.getPotentialEnergy
    ring
  · unfold Skater.gravity at *; linarith
  · show -sk.mass * (sk.position.2 - sk.referenceHeight) * sk.gravity =
      -(sk.mass * sk.gravity * (sk.position.2 - sk.referenceHeight))
    ring

/-- C1 witness: at the default skater the gravity-magnitude hypothesis
holds and the signed gravity is non-positive. -/
theorem C1_energy_bookkeeping_witness :
    (0 : Rat) ≤ Skater.initialSkater.gravityMagnitude ∧
      Skater.gravity Skater.initialSkater ≤ 0 :=
  ⟨by norm_num [Skater.initialSkater],
   C1_energy_bookkeeping.2.1 Skater.initialSkater (by norm_num [Skater.initialSkater])⟩

/-- C3: the ground-strike transition of a free-fall state (thermal-energy
argument modelled from the spec as accumulated thermal plus pre-impact
kinetic energy) yields y = 0, zero velocity, angle 0, no track, upright,
and thermal energy increased by exactly the pre-impact kinetic energy —
through both `strikeGround` and `switchToGround`. -/
theorem C3_ground_strike (s : SkaterState) (px : Rat) (h : s.track = none) :
    (groundStrikeTransition s px).positionY = 0 ∧
    (groundStrikeTransition s px).velocityX = 0 ∧
    (groundStrikeTransition s px).velocityY = 0 ∧
    (groundStrikeTransition s px).angle = 0 ∧
    (groundStrikeTransition s px).track = none ∧
    (groundStrikeTransition s px).onTopSideOfTrack = true ∧
    (groundStrikeTransition s px).thermalEnergy = s.thermalEnergy + s.getKineticEnergy ∧
    (groundSwitchTransition s px).positionY = 0 ∧
    (groundSwitchTransition s px).velocityX = 0 ∧
    (groundSwitchTransition s px).velocityY = 0 ∧
    (groundSwitchTransition s px).angle = 0 ∧
    (groundSwitchTransition s px).track = none ∧
    (groundSwitchTransition s px).onTopSideOfTrack = true ∧
    (groundSwitchTransition s px).thermalEnergy = s.thermalEnergy + s.getKineticEnergy :=
  ⟨rfl, rfl, rfl, rfl, h, rfl, rfl, rfl, rfl, rfl, rfl, rfl, rfl, rfl⟩

/-- C3 witness: the transition evaluated at a concrete free-fall state. -/
theorem C3_ground_strike_witness :
    exampleState.track = none ∧
      (groundStrikeTransition exampleState 4).thermalEnergy =
        exampleState.thermalEnergy + exampleState.getKineticEnergy :=
  ⟨rfl, (C3_ground_strike exampleState 4 rfl).2.2.2.2.2.2.1⟩

/-- C4: `leaveTrack` clears the track reference and zeroes the parametric
speed, leaving every other field of the state unchanged. -/
theorem C4_leaveTrack (s : SkaterState) :
    s.leaveTrack.track = none ∧
    s.leaveTrack.parametricSpeed = 0 ∧
    s.leaveTrack.positionX = s.positionX ∧
    s.leaveTrack.positionY = s.positionY ∧
    s.leaveTrack.velocityX = s.velocityX ∧
    s.leaveTrack.velocityY = s.velocityY ∧
    s.leaveTrack.thermalEnergy = s.thermalEnergy ∧
    s.leaveTrack.mass = s.mass ∧
    s.leaveTrack.gravity = s.gravity ∧
    s.leaveTrack.referenceHeight = s.referenceHeight ∧
    s.leaveTrack.angle = s.angle ∧
    s.leaveTrack.onTopSideOfTrack = s.onTopSideOfTrack ∧
    s.leaveTrack.parametricPosition = s.parametricPosition ∧
    s.leaveTrack.dragging = s.dragging :=
  ⟨rfl, rfl, rfl, rfl, rfl, rfl, rfl, rfl, rfl, rfl, rfl, rfl, rfl, rfl⟩

/-- C5: every SkaterState transform is a pure value transformation — each
produces the state equal to the source with exactly the named fields
replaced (so no transform disturbs any other field, and the source value
itself is unchanged by construction). -/
theorem C5_pure_transforms (s : SkaterState) (o : Overrides)
    (te u uD vx vy px py ang : Rat) (tr : Option TrackId) (up : Bool) :
    s.copy = s ∧
    s.update {} = s ∧
    s.updateTrackUD tr uD = { s with track := tr, parametricSpeed := uD } ∧
    s.updateUUDVelocityPosition u uD vx vy px py =
      { s with parametricPosition := u, parametricSpeed := uD, velocityX := vx,
               velocityY := vy, positionX := px, positionY := py } ∧
    s.updatePositionAngleUpVelocity px py ang up vx vy =
      { s with angle := ang, onTopSideOfTrack := up, velocityX := vx,
               velocityY := vy, positionX := px, positionY := py } ∧
    s.updateThermalEnergy te = { s with thermalEnergy := te } ∧
    s.updateUPosition u px py =
      { s with parametricPosition := u, positionX := px, positionY := py } ∧
    s.switchToGround te vx vy px py =
      { s with thermalEnergy := te, track := none, onTopSideOfTrack := true,
               angle := 0, velocityX := vx, velocityY := vy, positionX := px,
               positionY := py } ∧
    s.strikeGround te px =
      { s with thermalEnergy := te, positionX := px, positionY := 0,
               velocityX := 0, velocityY := 0, angle := 0, onTopSideOfTrack := true } ∧
    s.leaveTrack = { s with parametricSpeed := 0, track := none } ∧
    s.updatePosition px py = { s with positionX := px, positionY := py } ∧
    s.updateUDVelocity uD vx vy =
      { s with parametricSpeed := uD, velocityX := vx, velocityY := vy } ∧
    s.continueFreeFall vx vy px py =
      { s with velocityX := vx, velocityY := vy, positionX := px, positionY := py } ∧
    s.attachToTrack te tr up u uD vx vy px py =
      { s with thermalEnergy := te, track := tr, onTopSideOfTrack := up,
               parametricPosition := u, parametricSpeed := uD, velocityX := vx,
               velocityY := vy, positionX := px, positionY := py } ∧
    s.update o = s.setState o :=
  ⟨rfl, rfl, rfl, rfl, rfl, rfl, rfl, rfl, rfl, rfl, rfl, rfl, rfl, rfl, rfl⟩

/-- C6: `copy` reproduces the state exactly — every field is equal, and in
particular the recomputed total energy is exactly the original's. -/
theorem C6_copy_roundtrip (s : SkaterState) :
    s.copy = s ∧ s.copy.getTotalEnergy = s.getTotalEnergy :=
  ⟨rfl, rfl⟩

/-- C2: thermal energy stays non-negative through every SkaterState
construction and transform (under the preconditions the source asserts:
non-negative source thermal energy and non-negative thermal-energy
arguments), every reachable live skater has non-negative thermal energy,
and its mass is strictly positive, lying in the configured mass range.
Velocity components are exact rationals in this embedding, hence finite
by construction. -/
theorem C2_nonneg_invariants (s : SkaterState) (sk : Skater) (o : Overrides)
    (te u uD vx vy px py ang : Rat) (tr : Option TrackId) (up : Bool) (sk2 : Skater)
    (hs : 0 ≤ s.thermalEnergy)
    (ho : ∀ x, o.thermalEnergy = some x → 0 ≤ x)
    (hsk : 0 ≤ sk.thermalEnergy)
    (hte : 0 ≤ te)
    (hreach : Skater.Reachable sk2) :
    0 ≤ (s.setState o).thermalEnergy ∧
    0 ≤ (SkaterState.fromSkater sk o).thermalEnergy ∧
    0 ≤ (s.update o).thermalEnergy ∧
    0 ≤ (s.updateThermalEnergy te).thermalEnergy ∧
    0 ≤ (s.strikeGround te px).thermalEnergy ∧
    0 ≤ (s.switchToGround te vx vy px py).thermalEnergy ∧
    0 ≤ (s.attachToTrack te tr up u uD vx vy px py).thermalEnergy ∧
    0 ≤ s.copy.thermalEnergy ∧
    0 ≤ s.leaveTrack.thermalEnergy ∧
    0 ≤ (s.updateTrackUD tr uD).thermalEnergy ∧
    0 ≤ (s.updateUUDVelocityPosition u uD vx vy px py).thermalEnergy ∧
    0 ≤ (s.updatePositionAngleUpVelocity px py ang up vx vy).thermalEnergy ∧
    0 ≤ (s.updateUPosition u px py).thermalEnergy ∧
    0 ≤ (s.updatePosition px py).thermalEnergy ∧
    0 ≤ (s.updateUDVelocity uD vx vy).thermalEnergy ∧
    0 ≤ (s.continueFreeFall vx vy px py).thermalEnergy ∧
    0 ≤ sk2.thermalEnergy ∧
    0 < sk2.mass ∧
    Constants.MASS_RANGE_MIN ≤ sk2.mass ∧ sk2.mass ≤ Constants.MASS_RANGE_MAX := by
  have hset : 0 ≤ (s.setState o).thermalEnergy := by
    unfold SkaterState.setState
    cases hoo : o.thermalEnergy with
    | none => simpa [hoo] using hs
    | some x => simpa [hoo] using ho x hoo
  have hfrom : 0 ≤ (SkaterState.fromSkater sk o).thermalEnergy := by
    unfold SkaterState.fromSkater
    cases hoo : o.thermalEnergy with
    | none => simpa [hoo] using hsk
    | some x => simpa [hoo] using ho x hoo
  obtain ⟨hr1, _, hr3, hr4⟩ := Skater.reachable_invariant hreach
  have hmasspos : 0 < sk2.mass :=
    lt_of_lt_of_le (by norm_num [Constants.MASS_RANGE_MIN]) hr3
  exact ⟨hset, hfrom, hset, hte, hte, hte, hte, hs, hs, hs, hs, hs, hs, hs, hs, hs,
    hr1, hmasspos, hr3, hr4⟩

/-- C2 witness: the invariants evaluated at a concrete snapshot, empty
overrides, a concrete thermal-energy argument, and the initial skater. -/
theorem C2_nonneg_invariants_witness :
    0 ≤ (exampleState.updateThermalEnergy 2).thermalEnergy ∧
      0 < Skater.initialSkater.mass :=
  ⟨(C2_nonneg_invariants exampleState Skater.initialSkater {} 2 0 0 0 0 0 0 0 none true
      Skater.initialSkater (by norm_num [exampleState])
      (fun x h => Option.noConfusion h) (by norm_num [Skater.initialSkater])
      (by norm_num) Skater.Reachable.init).2.2.2.1,
   (C2_nonneg_invariants exampleState Skater.initialSkater {} 2 0 0 0 0 0 0 0 none true
      Skater.initialSkater (by norm_num [exampleState])
      (fun x h => Option.noConfusion h) (by norm_num [Skater.initialSkater])
      (by norm_num) Skater.Reachable.init).2.2.2.2.2.2.2.2.2.2.2.2.2.2.2.2.2.1⟩

/-- C7: `returnSkater` restores the last release snapshot — when a
starting track was recorded, the skater is on that same track by identity,
and the track's control-point sources equal those captured at release, the
track attachment is kept with parametric position, angle and side of track
restored from the snapshot and parametric speed zeroed; otherwise the
track reference is cleared; in both cases the position is restored to the
starting position and the velocity zeroed. -/
theorem C7_returnSkater (cps : TrackId → List Vec2) (s : Skater) :
    (Skater.returnSkater cps s).position = s.startingPosition ∧
    (Skater.returnSkater cps s).velocity = (0, 0) ∧
    (Skater.sameStartingTrack cps s = true →
      (Skater.returnSkater cps s).track = s.track ∧
      (Skater.returnSkater cps s).parametricPosition = s.startingU ∧
      (Skater.returnSkater cps s).angle = s.startingAngle ∧
      (Skater.returnSkater cps s).onTopSideOfTrack = s.startingUp ∧
      (Skater.returnSkater cps s).parametricSpeed = 0) ∧
    (Skater.sameStartingTrack cps s = false →
      (Skater.returnSkater cps s).track = none ∧
      (Skater.returnSkater cps s).angle = s.startingAngle) := by
  refine ⟨rfl, rfl, fun hc => ?_, fun hc => ?_⟩
  · unfold Skater.returnSkater
    rw [if_pos hc]
    exact ⟨Skater.setParametricSpeed_track 0 _,
      Skater.setParametricSpeed_parametricPosition 0 _,
      Skater.setParametricSpeed_angle 0 _,
      Skater.setParametricSpeed_onTopSideOfTrack 0 _,
      Skater.setParametricSpeed_parametricSpeed 0 _⟩
  · unfold Skater.returnSkater
    rw [if_neg (by simp [hc])]
    exact ⟨rfl, rfl⟩

/-- C7 witness: return evaluated on a concrete skater still on its
unchanged starting track. -/
theorem C7_returnSkater_witness :
    Skater.sameStartingTrack exampleCps exampleSkaterOnTrack = true ∧
      (Skater.returnSkater exampleCps exampleSkaterOnTrack).parametricPosition =
        exampleSkaterOnTrack.startingU :=
  ⟨by simp [Skater.sameStartingTrack, exampleCps, exampleSkaterOnTrack,
      Skater.arrayEquals, Skater.initialSkater],
   ((C7_returnSkater exampleCps exampleSkaterOnTrack).2.2.1
      (by simp [Skater.sameStartingTrack, exampleCps, exampleSkaterOnTrack,
        Skater.arrayEquals, Skater.initialSkater])).2.1⟩

/-- C8 counterexample: `resetPosition` does not restore the reference
height to its construction default — on a skater with reference height 1
the field keeps the value 1 after the call, so not every non-mass field
returns to its default. -/
theorem C8_counterexample :
    ¬ ((Skater.resetPosition exampleRefHeightSkater).referenceHeight =
        Skater.initialSkater.referenceHeight) := by
  norm_num [Skater.resetPosition, Skater.updateEnergy, exampleRefHeightSkater,
    Skater.initialSkater]

/-- C8 (amended): `returnToInitialPosition` restores every Property to its
construction default except the mass; `resetPosition` preserves both the
mass and the reference height, recomputing the potential and total energy
against the preserved reference height (`-9.8 * mass * referenceHeight`);
the plain release-snapshot fields are untouched by both. -/
theorem C8_reset_operations (s : Skater) :
    (Skater.returnToInitialPosition s).mass = s.mass ∧
    (Skater.returnToInitialPosition s) =
      { Skater.initialSkater with
        mass := s.mass
        startingAngle := s.startingAngle
        startingTrackControlPointSources := s.startingTrackControlPointSources } ∧
    (Skater.resetPosition s).mass = s.mass ∧
    (Skater.resetPosition s).referenceHeight = s.referenceHeight ∧
    (Skater.resetPosition s).track = none ∧
    (Skater.resetPosition s).parametricPosition = 0 ∧
    (Skater.resetPosition s).parametricSpeed = 0 ∧
    (Skater.resetPosition s).onTopSideOfTrack = true ∧
    (Skater.resetPosition s).gravityMagnitude = 9.8 ∧
    (Skater.resetPosition s).position = (3.5, 0) ∧
    (Skater.resetPosition s).direction = Direction.left ∧
    (Skater.resetPosition s).velocity = (0, 0) ∧
    (Skater.resetPosition s).dragging = false ∧
    (Skater.resetPosition s).angle = 0 ∧
    (Skater.resetPosition s).startingPosition = (3.5, 0) ∧
    (Skater.resetPosition s).startingU = 0 ∧
    (Skater.resetPosition s).startingUp = true ∧
    (Skater.resetPosition s).startingTrack = none ∧
    (Skater.resetPosition s).startingAngle = s.startingAngle ∧
    (Skater.resetPosition s).startingTrackControlPointSources =
      s.startingTrackControlPointSources ∧
    (Skater.resetPosition s).kineticEnergy = 0 ∧
    (Skater.resetPosition s).thermalEnergy = 0 ∧
    (Skater.resetPosition s).potentialEnergy = -(9.8 * s.mass * s.referenceHeight) ∧
    (Skater.resetPosition s).totalEnergy = -(9.8 * s.mass * s.referenceHeight) := by
  have hret : (Skater.returnToInitialPosition s) =
      { Skater.initialSkater with
        mass := s.mass
        startingAngle := s.startingAngle
        startingTrackControlPointSources := s.startingTrackControlPointSources } := by
    unfold Skater.returnToInitialPosition Skater.setMass
    rw [Skater.reset_eq]
    split
    · next h => rw [h]
    · unfold Skater.updateEnergy
      norm_num [Skater.initialSkater, Skater.gravity]
  refine ⟨by rw [hret], hret, ?_⟩
  unfold Skater.resetPosition Skater.updateEnergy
  refine ⟨rfl, rfl, rfl, rfl, rfl, rfl, rfl, rfl, rfl, rfl, rfl, rfl, rfl, rfl, rfl,
    rfl, rfl, rfl, ?_, rfl, ?_, ?_⟩
  · show (0.5 : Rat) * s.mass * (0 * 0 + 0 * 0) = 0
    ring
  · show -s.mass * (0 - s.referenceHeight) * Skater.gravity _ = _
    simp [Skater.gravity, Skater.initialSkater]
    ring
  · show 0.5 * s.mass * (0 * 0 + 0 * 0) +
      -s.mass * (0 - s.referenceHeight) * Skater.gravity _ + 0 = _
    simp [Skater.gravity, Skater.initialSkater]
    ring

/-- C9: while dragging, the velocity is zero — every reachable skater with
the dragging flag set has velocity (0, 0); setting the dragging flag to
`true` zeroes the velocity through the Property link; and a drag gesture's
`start` handler clears the thermal energy and raises the flag. -/
theorem C9_dragging_override (s : Skater) (r : DragResult)
    (h : Skater.Reachable s) :
    (s.dragging = true → s.velocity = (0, 0)) ∧
    (Skater.dragStart r s).thermalEnergy = 0 ∧
    (Skater.dragStart r s).dragging = true ∧
    (∀ s2 : Skater, s2.dragging = false → (Skater.setDragging true s2).velocity = (0, 0)) := by
  refine ⟨(Skater.reachable_invariant h).2.1, Skater.dragStart_thermalEnergy r s,
    Skater.dragStart_dragging r s, fun s2 h2 => ?_⟩
  unfold Skater.setDragging
  rw [if_neg (by simp [h2])]
  simp

/-- C9 witness: the dragging invariant evaluated at the initial skater and
a concrete drag gesture. -/
theorem C9_dragging_override_witness :
    (Skater.dragStart (DragResult.free (0, 0)) Skater.initialSkater).thermalEnergy = 0 ∧
      (Skater.dragStart (DragResult.free (0, 0)) Skater.initialSkater).dragging = true :=
  ⟨(C9_dragging_override Skater.initialSkater (DragResult.free (0, 0))
      Skater.Reachable.init).2.1,
   (C9_dragging_override Skater.initialSkater (DragResult.free (0, 0))
      Skater.Reachable.init).2.2.1⟩

/-- C10: direction hysteresis — on a parametric-speed update the direction
becomes right above the 0.01 threshold on top of the track (left on the
underside), left below -0.01 on top (right on the underside), and is left
unchanged when the absolute value of the new speed is at most 0.01. -/
theorem C10_direction_hysteresis (onTop : Bool) (d : Direction) (v : Rat)
    (s : Skater) (hne : v ≠ s.parametricSpeed) :
    (0.01 < v →
      Skater.directionAfterSpeed onTop d v =
        (if onTop then Direction.right else Direction.left)) ∧
    (v < -0.01 →
      Skater.directionAfterSpeed onTop d v =
        (if onTop then Direction.left else Direction.right)) ∧
    (-0.01 ≤ v → v ≤ 0.01 → Skater.directionAfterSpeed onTop d v = d) ∧
    (Skater.setParametricSpeed v s).parametricSpeed = v ∧
    (Skater.setParametricSpeed v s).direction =
      Skater.directionAfterSpeed s.onTopSideOfTrack s.direction v := by
  refine ⟨fun h1 => ?_, fun h2 => ?_, fun h3 h4 => ?_,
    Skater.setParametricSpeed_parametricSpeed v s, ?_⟩
  · unfold Skater.directionAfterSpeed
    rw [if_pos h1]
  · unfold Skater.directionAfterSpeed
    rw [if_neg (by push_neg; linarith), if_pos h2]
  · unfold Skater.directionAfterSpeed
    rw [if_neg (by push_neg; linarith), if_neg (by push_neg; linarith)]
  · unfold Skater.setParametricSpeed
    rw [if_neg hne]

/-- C10 witness: the hysteresis evaluated at concrete speeds around the
threshold. -/
theorem C10_direction_hysteresis_witness :
    (0.02 : Rat) ≠ Skater.initialSkater.parametricSpeed ∧
      (Skater.setParametricSpeed 0.02 Skater.initialSkater).parametricSpeed = 0.02 ∧
      Skater.directionAfterSpeed true Direction.left 0.02 =
        (if true then Direction.right else Direction.left) :=
  ⟨by norm_num [Skater.initialSkater],
   (C10_direction_hysteresis true Direction.left 0.02 Skater.initialSkater
      (by norm_num [Skater.initialSkater])).2.2.2.1,
   (C10_direction_hysteresis true Direction.left 0.02 Skater.initialSkater
      (by norm_num [Skater.initialSkater])).1 (by norm_num)⟩
